import Mathlib

/-!
Verification development for the carbon-credit projection engine of the
calculator page (`src/pages/CarbonCalculator.tsx`).  The engine is embedded
shallowly: parsed numeric inputs are modelled as real numbers, the custom
biomass-expression guard pipeline is modelled exactly on character lists, and
the dynamic JS function invocation at the end of the expression evaluator is
abstracted as an oracle parameter (`none` models an exception, a non-numeric
result, or a non-finite result).
-/

namespace Carbon

/-- Region selector for the default allometric formula. -/
inductive RegionType where
  | dry
  | moist
deriving DecidableEq

/-- How a species row specifies its stocking. -/
inductive DensityMode where
  | spacing
  | density
deriving DecidableEq

/-- Planting-schedule mode. -/
inductive ScheduleMode where
  | constant
  | custom
deriving DecidableEq

/-! ## Custom-expression evaluator guards (`evalBiomassExpr`)

The source trims the raw expression, checks every character against a
whitelist, rewrites the function tokens `ln( exp( sqrt( pow( min( max(` to
their `Math.*` equivalents, parenthesises stand-alone `D`, rejects blocklisted
fragments, and only then hands the string to a dynamically built function.
All of that string pipeline is modelled here verbatim on `List Char`. -/

/-- JS whitespace characters relevant to `\s` and `trim` (ASCII subset). -/
def isWsChar (c : Char) : Bool :=
  c = ' ' || c = '\t' || c = '\n' || c = '\r' || c = '\x0b' || c = '\x0c'

/-- Character whitelist of the source regex
`[0-9+\-*/().,\sDdepxowlnqrtmacs]` with the case-insensitive flag. -/
def allowedChar (c : Char) : Bool :=
  c.isDigit || c = '+' || c = '-' || c = '*' || c = '/' || c = '(' ||
  c = ')' || c = '.' || c = ',' || isWsChar c ||
  c.toLower = 'd' || c.toLower = 'e' || c.toLower = 'p' || c.toLower = 'x' ||
  c.toLower = 'o' || c.toLower = 'w' || c.toLower = 'l' || c.toLower = 'n' ||
  c.toLower = 'q' || c.toLower = 'r' || c.toLower = 't' || c.toLower = 'm' ||
  c.toLower = 'a' || c.toLower = 'c' || c.toLower = 's'

/-- Both-ends trim, as JS `String.prototype.trim`. -/
def trimStr (s : List Char) : List Char :=
  ((s.dropWhile isWsChar).reverse.dropWhile isWsChar).reverse

/-- Case-insensitively strip a (lowercase) token from the front of a string;
returns the remainder on success. -/
def stripTok : List Char → List Char → Option (List Char)
  | [], s => some s
  | _ :: _, [] => none
  | p :: ps, c :: cs => if c.toLower = p then stripTok ps cs else none

/-- Match one occurrence of a function token `name\s*(` at the head of the
string (case-insensitive, as the source regexes), returning the remainder
after the opening parenthesis. -/
def matchFnTok (name : List Char) (s : List Char) : Option (List Char) :=
  match stripTok name s with
  | none => none
  | some r =>
    match r.dropWhile isWsChar with
    | '(' :: rest => some rest
    | _ => none

/-- Global left-to-right replace of `name\s*(` by `repl`, continuing after
each replacement (replacement text is not rescanned), as JS global
`String.prototype.replace`.  The fuel is initialised to the string length,
which suffices because every step consumes at least one input character. -/
def replaceScan (name repl : List Char) : Nat → List Char → List Char
  | _, [] => []
  | 0, s => s
  | fuel + 1, c :: cs =>
    match matchFnTok name (c :: cs) with
    | some rest => repl ++ replaceScan name repl fuel rest
    | none => c :: replaceScan name repl fuel cs

/-- One global function-token replacement pass. -/
def replaceTok (name repl : List Char) (s : List Char) : List Char :=
  replaceScan name repl s.length s

/-- JS word character (`\w`). -/
def isWordChar (c : Char) : Bool :=
  c.isAlpha || c.isDigit || c = '_'

/-- Global replacement of `\bD\b` by `(D)` (case-sensitive); the boundary is
judged against the original neighbours, as regex replacement does. -/
def replaceD : Option Char → List Char → List Char
  | _, [] => []
  | prev, c :: cs =>
    if c = 'D' &&
        (match prev with
         | none => true
         | some p => !isWordChar p) &&
        (match cs.head? with
         | none => true
         | some nx => !isWordChar nx) then
      '(' :: 'D' :: ')' :: replaceD (some c) cs
    else
      c :: replaceD (some c) cs

/-- The six `Math.*` rewrites of the source, in source order. -/
def rewriteFns (s : List Char) : List Char :=
  replaceTok ("max".toList) ("Math.max(".toList)
    (replaceTok ("min".toList) ("Math.min(".toList)
      (replaceTok ("pow".toList) ("Math.pow(".toList)
        (replaceTok ("sqrt".toList) ("Math.sqrt(".toList)
          (replaceTok ("exp".toList) ("Math.exp(".toList)
            (replaceTok ("ln".toList) ("Math.log(".toList) s)))))

/-- Does `pat` occur at the head of `s`? -/
def headMatches : List Char → List Char → Bool
  | [], _ => true
  | _ :: _, [] => false
  | p :: ps, c :: cs => p = c && headMatches ps cs

/-- Does `pat` occur anywhere in `s`? -/
def containsSeq (pat : List Char) : List Char → Bool
  | [] => headMatches pat []
  | c :: cs => headMatches pat (c :: cs) || containsSeq pat cs

/-- Helper for the `new\s` blocklist pattern: does the string begin with
`ew` followed by a whitespace character? -/
def checkEwWs : List Char → Bool
  | 'e' :: 'w' :: d :: _ => isWsChar d
  | _ => false

/-- Does `new` followed by whitespace occur anywhere in the string? -/
def hasNewWs : List Char → Bool
  | [] => false
  | c :: cs => (c = 'n' && checkEwWs cs) || hasNewWs cs

/-- The blocklist regex `(constructor|__proto__|prototype|=>|new\s)` with the
case-insensitive flag. -/
def hasBlocked (s : List Char) : Bool :=
  let l := s.map Char.toLower
  containsSeq ("constructor".toList) l ||
  containsSeq ("__proto__".toList) l ||
  containsSeq ("prototype".toList) l ||
  containsSeq ("=>".toList) l ||
  hasNewWs l

/-- Abstract model of the dynamically built JS function applied to the
rewritten expression text and the diameter: `none` stands for a thrown
exception, a non-number result, or a non-finite result; `some v` stands for
a finite numeric result. -/
def JsEvalOracle : Type := List Char → ℝ → Option ℝ

/-- The guarded expression evaluator `evalBiomassExpr` of the source.
Returns `none` (the NaN sentinel) for the empty string, for strings with a
character outside the whitelist, for strings matching the blocklist after
rewriting, and whenever the underlying evaluation fails. -/
def evalBiomassExpr (jsFun : JsEvalOracle) (D : ℝ) (exprRaw : List Char) :
    Option ℝ :=
  if exprRaw = [] then none
  else
    let e1 := trimStr exprRaw
    if !(e1.all allowedChar) then none
    else
      let e3 := replaceD none (rewriteFns e1)
      if hasBlocked e3 then none
      else
        match jsFun e3 D with
        | none => none
        | some v => some v

/-! ## Numeric helpers of the source -/

/-- `clamp` of the source, on reals. -/
noncomputable def clampR (n lo hi : ℝ) : ℝ := max lo (min hi n)

/-- `clamp` of the source, on integers (used for the schedule-years count). -/
def clampI (n lo hi : ℤ) : ℤ := max lo (min hi n)

/-- `densityFromSpacing`: `10000 / spacing²`, and 0 for non-positive spacing
(the source guard `!spacingMeters || spacingMeters <= 0`). -/
noncomputable def densityFromSpacing (spacingMeters : ℝ) : ℝ :=
  if spacingMeters ≤ 0 then 0 else 10000 / (spacingMeters * spacingMeters)

/-- `kgBiomassToTonsCO2e`: biomass → carbon (0.47) → CO2 (44/12) → tonnes. -/
noncomputable def kgBiomassToTonsCO2e (biomassKg : ℝ) : ℝ :=
  biomassKg * 0.47 * (44 / 12) / 1000

/-- `defaultAllometryBiomassKg`: the default regional allometric formula; the
source guard `!D_cm || isNaN(D_cm) || D_cm <= 0` collapses to `D ≤ 0` on the
reals. -/
noncomputable def defaultAllometryBiomassKg (D_cm : ℝ) (region : RegionType) :
    ℝ :=
  if D_cm ≤ 0 then 0
  else
    match region with
    | .dry => Real.exp (-1.996 + 2.32 * Real.log D_cm)
    | .moist => Real.exp (-2.134 + 2.530 * Real.log D_cm)

/-! ## Input model

Fields hold the source's parsed numeric values (`parseInt` / `parseFloat`
results); an `Option` field is `none` when the underlying form field is
absent or fails to parse (JS `NaN`, which is falsy in the `x || fallback`
idioms the source uses for these fields). -/

/-- A species row, post parsing. -/
structure SpeciesRowP where
  id : String
  name : String
  region : RegionType
  percent : ℝ
  inputMode : DensityMode
  spacing : ℝ
  density : ℝ
  growthRateCmYr : Option ℝ
  initialDbhCm : Option ℝ
  useCustomEq : Bool
  customEquation : List Char

/-- Full calculator input, post parsing. -/
structure CalcInput where
  plantingYear : ℤ
  creditingEndYear : ℤ
  mortalityRatePct : ℝ
  considerMortality : Bool
  defaultGrowthRate : ℝ
  forceYearZeroZero : Bool
  useSchedule : Bool
  scheduleYears : ℤ
  scheduleMode : ScheduleMode
  constantAreaPerYear : ℝ
  customSchedule : List (ℤ × ℝ)
  projectAreaHa : ℝ
  rows : List SpeciesRowP

/-! ## Output model -/

/-- One per-species accumulator / reported entry of a `YearRecord`. -/
structure SpAgg where
  speciesId : String
  name : String
  credits : ℝ
  biomassKg : ℝ
  survivingTrees : ℝ
  dbhCm : ℝ

/-- One modeled year of output. -/
structure YearRecord where
  year : ℤ
  credits : ℝ
  biomassKg : ℝ
  survivingTrees : ℝ
  perSpecies : List SpAgg

/-- One cumulative per-species summary entry. -/
structure SpeciesSummaryEntry where
  speciesId : String
  name : String
  totalCredits : ℝ

/-- The `CalcResult` of the source. -/
structure CalcResult where
  totalCredits : ℝ
  yearlyBreakdown : List YearRecord
  speciesSummary : List SpeciesSummaryEntry

/-- Zero-valued default `SpAgg` (used only as a `getD` default in
statements). -/
def dfltAgg : SpAgg := ⟨"", "", 0, 0, 0, 0⟩

/-- Zero-valued default `YearRecord` (used only as a `getD` default in
statements). -/
def dfltYear : YearRecord := ⟨0, 0, 0, 0, []⟩

/-- Zero-valued default summary entry (used only as a `getD` default in
statements). -/
def dfltSummary : SpeciesSummaryEntry := ⟨"", "", 0⟩

/-! ## The calculation (`calculate` of the source) -/

/-- Resolved per-species runtime parameters (the `speciesSetup` array). -/
structure Setup where
  id : String
  name : String
  region : RegionType
  percent : ℝ
  densityHa : ℝ
  growthRateCmYr : ℝ
  initialDbhCm : ℝ
  biomassFn : ℝ → ℝ

/-- Resolve one species row, as the `speciesSetup` mapping of the source:
density from mode, growth rate via the JS `parseFloat(x) || defaultGR`
idiom (falls back for absent and for zero, keeps any other parsed value),
initial diameter via `parseFloat(x) || 0`, percent clamped to `[0, 100]`,
and the per-call biomass function with its silent fallback to the default
allometry. -/
noncomputable def speciesSetupRow (jsFun : JsEvalOracle) (defaultGR : ℝ)
    (r : SpeciesRowP) : Setup :=
  { id := r.id
    name := if r.name = "" then "Unnamed" else r.name
    region := r.region
    percent := clampR r.percent 0 100
    densityHa :=
      match r.inputMode with
      | .density => max 0 r.density
      | .spacing => densityFromSpacing r.spacing
    growthRateCmYr :=
      match r.growthRateCmYr with
      | none => defaultGR
      | some v => if v = 0 then defaultGR else v
    initialDbhCm :=
      match r.initialDbhCm with
      | none => 0
      | some v => v
    biomassFn := fun D =>
      if r.useCustomEq = true ∧ r.customEquation ≠ [] then
        match evalBiomassExpr jsFun D r.customEquation with
        | some v => if 0 ≤ v then v else defaultAllometryBiomassKg D r.region
        | none => defaultAllometryBiomassKg D r.region
      else defaultAllometryBiomassKg D r.region }

/-- The mortality fraction used by the loop: clamped to `[0,1]` when
mortality is considered, 0 otherwise. -/
noncomputable def mortalityFraction (inp : CalcInput) : ℝ :=
  if inp.considerMortality then clampR (inp.mortalityRatePct / 100) 0 1 else 0

/-- Build the per-year planted-area schedule: with scheduling on, one entry
per schedule year (count clamped to `[0, 200]`), pulling the constant area
or the matching custom-schedule row (0 when missing); with scheduling off, a
single full-area entry at the planting year.  Areas are floored at 0. -/
noncomputable def buildSchedule (inp : CalcInput) : List (ℤ × ℝ) :=
  if inp.useSchedule then
    (List.range (clampI inp.scheduleYears 0 200).toNat).map (fun (i : ℕ) =>
      let y := inp.plantingYear + (i : ℤ)
      let area :=
        match inp.scheduleMode with
        | .constant => inp.constantAreaPerYear
        | .custom =>
          (((inp.customSchedule.find? (fun rc => rc.1 == y)).map
            (fun rc => rc.2)).getD 0)
      (y, max 0 area))
  else [(inp.plantingYear, max 0 inp.projectAreaHa)]

/-- Cohort age of a schedule entry planted in `schYear` at model year `g`
(only used after the not-yet-planted skip, so the difference is ≥ 0). -/
def cohortAgeOf (py : ℤ) (g : ℕ) (schYear : ℤ) : ℕ :=
  ((g : ℤ) - (schYear - py)).toNat

/-- One cohort-species contribution (the inner loop body): surviving trees
under exponential mortality, age-specific diameter with the year-zero
override, per-tree biomass via the species function, the year-zero biomass
override, and the CO2e conversion. -/
noncomputable def contrib (mort : ℝ) (force : Bool) (age : ℕ) (areaHa : ℝ)
    (sp : Setup) : SpAgg :=
  let areaForSpeciesHa := sp.percent / 100 * areaHa
  let initialTrees := areaForSpeciesHa * sp.densityHa
  let surviving := initialTrees * (1 - mort) ^ age
  let dbh :=
    if force = true ∧ age = 0 then 0
    else sp.initialDbhCm + sp.growthRateCmYr * (age : ℝ)
  let speciesBiomassKg :=
    if force = true ∧ age = 0 then 0 else sp.biomassFn dbh * surviving
  { speciesId := sp.id
    name := sp.name
    credits := kgBiomassToTonsCO2e speciesBiomassKg
    biomassKg := speciesBiomassKg
    survivingTrees := surviving
    dbhCm := dbh }

/-- Fresh per-species accumulator for a model year. -/
def initAgg (sp : Setup) : SpAgg := ⟨sp.id, sp.name, 0, 0, 0, 0⟩

/-- Accumulate one cohort of one species into that species' accumulator
(species with non-positive percent are skipped; the diameter is overwritten,
the other metrics are summed). -/
noncomputable def stepAgg (mort : ℝ) (force : Bool) (py : ℤ) (g : ℕ)
    (sch : ℤ × ℝ) (sp : Setup) (agg : SpAgg) : SpAgg :=
  if sp.percent ≤ 0 then agg
  else
    let c := contrib mort force (cohortAgeOf py g sch.1) sch.2 sp
    { speciesId := agg.speciesId
      name := agg.name
      credits := agg.credits + c.credits
      biomassKg := agg.biomassKg + c.biomassKg
      survivingTrees := agg.survivingTrees + c.survivingTrees
      dbhCm := c.dbhCm }

/-- Running totals and per-species accumulators for one model year. -/
structure YearState where
  biomassKg : ℝ
  credits : ℝ
  trees : ℝ
  per : List SpAgg

/-- Process one schedule entry in one model year: skip cohorts not yet
planted, otherwise add every active species' contribution to the year totals
and to the per-species accumulators. -/
noncomputable def schedStep (mort : ℝ) (force : Bool) (py : ℤ) (g : ℕ)
    (setup : List Setup) (st : YearState) (sch : ℤ × ℝ) : YearState :=
  if (g : ℤ) < sch.1 - py then st
  else
    { biomassKg := st.biomassKg +
        (setup.map (fun sp =>
          if sp.percent ≤ 0 then 0
          else (contrib mort force (cohortAgeOf py g sch.1) sch.2 sp).biomassKg)).sum
      credits := st.credits +
        (setup.map (fun sp =>
          if sp.percent ≤ 0 then 0
          else (contrib mort force (cohortAgeOf py g sch.1) sch.2 sp).credits)).sum
      trees := st.trees +
        (setup.map (fun sp =>
          if sp.percent ≤ 0 then 0
          else (contrib mort force (cohortAgeOf py g sch.1) sch.2 sp).survivingTrees)).sum
      per := List.zipWith (stepAgg mort force py g sch) setup st.per }

/-- One `YearRecord`: fold every schedule entry into the year state. -/
noncomputable def yearRec (mort : ℝ) (force : Bool) (py : ℤ)
    (scheduled : List (ℤ × ℝ)) (setup : List Setup) (g : ℕ) : YearRecord :=
  let st := scheduled.foldl (schedStep mort force py g setup)
    ⟨0, 0, 0, setup.map initAgg⟩
  { year := py + (g : ℤ)
    credits := st.credits
    biomassKg := st.biomassKg
    survivingTrees := st.trees
    perSpecies := st.per }

/-- The `calculate` function of the source: build the schedule and the
species setup, produce one `YearRecord` per model year from `plantingYear`
to `creditingEndYear` inclusive, then the cumulative total and per-species
summary. -/
noncomputable def calculate (jsFun : JsEvalOracle) (inp : CalcInput) :
    CalcResult :=
  let py := inp.plantingYear
  let ey := inp.creditingEndYear
  let mort := mortalityFraction inp
  let scheduled := buildSchedule inp
  let setup := inp.rows.map (speciesSetupRow jsFun inp.defaultGrowthRate)
  let yearly := (List.range (ey - py + 1).toNat).map
    (yearRec mort inp.forceYearZeroZero py scheduled setup)
  { totalCredits := (yearly.map (fun d => d.credits)).sum
    yearlyBreakdown := yearly
    speciesSummary := setup.map (fun sp =>
      { speciesId := sp.id
        name := sp.name
        totalCredits := (yearly.map (fun d =>
          match d.perSpecies.find? (fun p => p.speciesId == sp.id) with
          | some p => p.credits
          | none => 0)).sum }) }

/-! ## IEEE-special-value model of the default allometry

The main development idealises JS numbers as reals, which cannot express the
source's behaviour on non-finite diameters.  `JVal` adds the three IEEE
special values on top of an (otherwise ideal, overflow-free) real payload,
with the JS semantics of the few operations `defaultAllometryBiomassKg`
performs. -/

/-- A JS number: NaN, the two infinities, or a finite value. -/
inductive JVal where
  | nan
  | inf
  | ninf
  | fin (x : ℝ)

/-- JS `Math.log` on `JVal`. -/
noncomputable def jsLog : JVal → JVal
  | .nan => .nan
  | .inf => .inf
  | .ninf => .nan
  | .fin x => if 0 < x then .fin (Real.log x) else if x = 0 then .ninf else .nan

/-- JS `Math.exp` on `JVal` (finite payloads stay finite: the model does not
track overflow of ideal reals to infinity). -/
noncomputable def jsExp : JVal → JVal
  | .nan => .nan
  | .inf => .inf
  | .ninf => .fin 0
  | .fin x => .fin (Real.exp x)

/-- Addition of a finite constant, JS semantics. -/
def jsAddC (c : ℝ) : JVal → JVal
  | .nan => .nan
  | .inf => .inf
  | .ninf => .ninf
  | .fin x => .fin (c + x)

/-- Multiplication by a finite positive constant, JS semantics (both
constants the source multiplies by, 2.32 and 2.530, are positive). -/
def jsMulPos (c : ℝ) : JVal → JVal
  | .nan => .nan
  | .inf => .inf
  | .ninf => .ninf
  | .fin x => .fin (c * x)

/-- `defaultAllometryBiomassKg` on `JVal`: the source guard
`!D_cm || isNaN(D_cm) || D_cm <= 0` returns 0 for NaN, for −∞, and for
finite non-positive values, and lets +∞ through to the formula. -/
noncomputable def defaultAllometryBiomassKgJ (D : JVal) (region : RegionType) :
    JVal :=
  let formula : JVal → JVal := fun d =>
    match region with
    | .dry => jsExp (jsAddC (-1.996) (jsMulPos 2.32 (jsLog d)))
    | .moist => jsExp (jsAddC (-2.134) (jsMulPos 2.530 (jsLog d)))
  match D with
  | .nan => .fin 0
  | .ninf => .fin 0
  | .inf => formula .inf
  | .fin x => if x ≤ 0 then .fin 0 else formula (.fin x)

/-! ## Fold characterisation lemmas -/

/-- Is a schedule entry already planted at model year `g`? -/
def activeP (py : ℤ) (g : ℕ) (sch : ℤ × ℝ) : Bool :=
  decide (sch.1 - py ≤ (g : ℤ))

/-- The contribution of one schedule entry to one species at model year
`g`. -/
noncomputable def contribOf (mort : ℝ) (force : Bool) (py : ℤ) (g : ℕ)
    (sp : Setup) (sch : ℤ × ℝ) : SpAgg :=
  contrib mort force (cohortAgeOf py g sch.1) sch.2 sp

/-- Per-species view of one `schedStep`. -/
noncomputable def aggStep (mort : ℝ) (force : Bool) (py : ℤ) (g : ℕ)
    (sp : Setup) (agg : SpAgg) (sch : ℤ × ℝ) : SpAgg :=
  if (g : ℤ) < sch.1 - py then agg else stepAgg mort force py g sch sp agg

theorem zipWith_map_self {α β γ : Type} (h : α → β → γ) (f : α → β)
    (l : List α) :
    List.zipWith h l (l.map f) = l.map (fun a => h a (f a)) := by
  induction l with
  | nil => rfl
  | cons a t ih => simp [ih]

theorem schedStep_foldl_per (mort : ℝ) (force : Bool) (py : ℤ) (g : ℕ)
    (setup : List Setup) (scheduled : List (ℤ × ℝ)) :
    ∀ (f : Setup → SpAgg) (b c t : ℝ),
      (scheduled.foldl (schedStep mort force py g setup)
          ⟨b, c, t, setup.map f⟩).per
        = setup.map (fun sp =>
            scheduled.foldl (aggStep mort force py g sp) (f sp)) := by
  induction scheduled with
  | nil => intro f b c t; rfl
  | cons sch rest ih =>
    intro f b c t
    by_cases hact : (g : ℤ) < sch.1 - py
    · have hstep : schedStep mort force py g setup ⟨b, c, t, setup.map f⟩ sch
          = ⟨b, c, t, setup.map f⟩ := by
        simp [schedStep, hact]
      have hagg : ∀ sp : Setup, aggStep mort force py g sp (f sp) sch = f sp := by
        intro sp; simp [aggStep, hact]
      simp only [List.foldl_cons, hstep, hagg, ih f b c t]
    · have hagg : ∀ sp : Setup, aggStep mort force py g sp (f sp) sch
          = stepAgg mort force py g sch sp (f sp) := by
        intro sp; simp [aggStep, hact]
      have hper : (schedStep mort force py g setup ⟨b, c, t, setup.map f⟩ sch).per
          = setup.map (fun sp => stepAgg mort force py g sch sp (f sp)) := by
        simp [schedStep, hact, zipWith_map_self]
      have hstep : schedStep mort force py g setup ⟨b, c, t, setup.map f⟩ sch
          = ⟨(schedStep mort force py g setup ⟨b, c, t, setup.map f⟩ sch).biomassKg,
             (schedStep mort force py g setup ⟨b, c, t, setup.map f⟩ sch).credits,
             (schedStep mort force py g setup ⟨b, c, t, setup.map f⟩ sch).trees,
             setup.map (fun sp => stepAgg mort force py g sch sp (f sp))⟩ := by
        rw [← hper]
      simp only [List.foldl_cons]
      rw [hstep, ih (fun sp => stepAgg mort force py g sch sp (f sp))]
      simp only [hagg]

theorem aggStep_foldl_spec (mort : ℝ) (force : Bool) (py : ℤ) (g : ℕ)
    (sp : Setup) (hp : 0 < sp.percent) (scheduled : List (ℤ × ℝ)) :
    ∀ a0 : SpAgg,
      scheduled.foldl (aggStep mort force py g sp) a0 =
        { speciesId := a0.speciesId
          name := a0.name
          credits := a0.credits +
            ((scheduled.filter (activeP py g)).map
              (fun sch => (contribOf mort force py g sp sch).credits)).sum
          biomassKg := a0.biomassKg +
            ((scheduled.filter (activeP py g)).map
              (fun sch => (contribOf mort force py g sp sch).biomassKg)).sum
          survivingTrees := a0.survivingTrees +
            ((scheduled.filter (activeP py g)).map
              (fun sch => (contribOf mort force py g sp sch).survivingTrees)).sum
          dbhCm := ((scheduled.filter (activeP py g)).getLast?).elim a0.dbhCm
            (fun sch => (contribOf mort force py g sp sch).dbhCm) } := by
  have hnle : ¬ sp.percent ≤ 0 := not_le.mpr hp
  induction scheduled with
  | nil => intro a0; cases a0; simp
  | cons sch rest ih =>
    intro a0
    by_cases hact : (g : ℤ) < sch.1 - py
    · have hfil : activeP py g sch = false := by
        simp [activeP]; omega
      have hstep : aggStep mort force py g sp a0 sch = a0 := by
        simp [aggStep, hact]
      simp only [List.foldl_cons, hstep, List.filter_cons, hfil]
      exact ih a0
    · have hfil : activeP py g sch = true := by
        simp [activeP]; omega
      have hstep : aggStep mort force py g sp a0 sch =
          { speciesId := a0.speciesId
            name := a0.name
            credits := a0.credits + (contribOf mort force py g sp sch).credits
            biomassKg := a0.biomassKg + (contribOf mort force py g sp sch).biomassKg
            survivingTrees := a0.survivingTrees +
              (contribOf mort force py g sp sch).survivingTrees
            dbhCm := (contribOf mort force py g sp sch).dbhCm } := by
        simp [aggStep, hact, stepAgg, hnle, contribOf]
      simp only [List.foldl_cons, hstep, List.filter_cons, hfil, if_true]
      rw [ih]
      simp only [List.map_cons, List.sum_cons]
      have hlast : ∀ (l : List (ℤ × ℝ)) (x : ℤ × ℝ),
          ((x :: l).getLast?).elim a0.dbhCm
              (fun s => (contribOf mort force py g sp s).dbhCm)
            = (l.getLast?).elim (contribOf mort force py g sp x).dbhCm
              (fun s => (contribOf mort force py g sp s).dbhCm) := by
        intro l x
        cases l with
        | nil => simp
        | cons y t =>
          have hs : ((y :: t).getLast?).isSome = true := by
            simp [List.getLast?_isSome]
          obtain ⟨z, hz⟩ := Option.isSome_iff_exists.mp hs
          simp [List.getLast?_cons_cons, hz]
      simp [hlast, add_assoc]

theorem aggStep_foldl_id (mort : ℝ) (force : Bool) (py : ℤ) (g : ℕ)
    (sp : Setup) (scheduled : List (ℤ × ℝ)) (a0 : SpAgg) :
    (scheduled.foldl (aggStep mort force py g sp) a0).speciesId = a0.speciesId
    ∧ (scheduled.foldl (aggStep mort force py g sp) a0).name = a0.name := by
  induction scheduled generalizing a0 with
  | nil => exact ⟨rfl, rfl⟩
  | cons sch rest ih =>
    have hkeep : (aggStep mort force py g sp a0 sch).speciesId = a0.speciesId
        ∧ (aggStep mort force py g sp a0 sch).name = a0.name := by
      by_cases hact : (g : ℤ) < sch.1 - py
      · simp [aggStep, hact]
      · by_cases hperc : sp.percent ≤ 0
        · simp [aggStep, hact, stepAgg, hperc]
        · simp [aggStep, hact, stepAgg, hperc]
    simp only [List.foldl_cons]
    obtain ⟨h1, h2⟩ := ih (aggStep mort force py g sp a0 sch)
    exact ⟨h1.trans hkeep.1, h2.trans hkeep.2⟩

theorem aggStep_foldl_neg (mort : ℝ) (force : Bool) (py : ℤ) (g : ℕ)
    (sp : Setup) (hp : sp.percent ≤ 0) (scheduled : List (ℤ × ℝ))
    (a0 : SpAgg) :
    scheduled.foldl (aggStep mort force py g sp) a0 = a0 := by
  induction scheduled generalizing a0 with
  | nil => rfl
  | cons sch rest ih =>
    have hstep : aggStep mort force py g sp a0 sch = a0 := by
      by_cases hact : (g : ℤ) < sch.1 - py
      · simp [aggStep, hact]
      · simp [aggStep, hact, stepAgg, hp]
    simp only [List.foldl_cons, hstep]
    exact ih a0

theorem schedStep_foldl_totals (mort : ℝ) (force : Bool) (py : ℤ) (g : ℕ)
    (setup : List Setup) (scheduled : List (ℤ × ℝ)) :
    ∀ (b c t : ℝ) (per : List SpAgg),
      (scheduled.foldl (schedStep mort force py g setup) ⟨b, c, t, per⟩).credits
        = c + ((scheduled.filter (activeP py g)).map
            (fun sch => (setup.map (fun sp =>
              if sp.percent ≤ 0 then 0
              else (contribOf mort force py g sp sch).credits)).sum)).sum
      ∧ (scheduled.foldl (schedStep mort force py g setup) ⟨b, c, t, per⟩).biomassKg
        = b + ((scheduled.filter (activeP py g)).map
            (fun sch => (setup.map (fun sp =>
              if sp.percent ≤ 0 then 0
              else (contribOf mort force py g sp sch).biomassKg)).sum)).sum
      ∧ (scheduled.foldl (schedStep mort force py g setup) ⟨b, c, t, per⟩).trees
        = t + ((scheduled.filter (activeP py g)).map
            (fun sch => (setup.map (fun sp =>
              if sp.percent ≤ 0 then 0
              else (contribOf mort force py g sp sch).survivingTrees)).sum)).sum := by
  induction scheduled with
  | nil => intro b c t per; simp
  | cons sch rest ih =>
    intro b c t per
    by_cases hact : (g : ℤ) < sch.1 - py
    · have hfil : activeP py g sch = false := by
        simp [activeP]; omega
      have hstep : schedStep mort force py g setup ⟨b, c, t, per⟩ sch
          = ⟨b, c, t, per⟩ := by
        simp [schedStep, hact]
      simp only [List.foldl_cons, hstep, List.filter_cons, hfil]
      exact ih b c t per
    · have hfil : activeP py g sch = true := by
        simp [activeP]; omega
      have hstep : schedStep mort force py g setup ⟨b, c, t, per⟩ sch
          = ⟨b + (setup.map (fun sp =>
                if sp.percent ≤ 0 then 0
                else (contribOf mort force py g sp sch).biomassKg)).sum,
             c + (setup.map (fun sp =>
                if sp.percent ≤ 0 then 0
                else (contribOf mort force py g sp sch).credits)).sum,
             t + (setup.map (fun sp =>
                if sp.percent ≤ 0 then 0
                else (contribOf mort force py g sp sch).survivingTrees)).sum,
             List.zipWith (stepAgg mort force py g sch) setup per⟩ := by
        simp [schedStep, hact, contribOf]
      simp only [List.foldl_cons, hstep, List.filter_cons, hfil, if_true]
      obtain ⟨h1, h2, h3⟩ := ih
        (b + (setup.map (fun sp =>
          if sp.percent ≤ 0 then 0
          else (contribOf mort force py g sp sch).biomassKg)).sum)
        (c + (setup.map (fun sp =>
          if sp.percent ≤ 0 then 0
          else (contribOf mort force py g sp sch).credits)).sum)
        (t + (setup.map (fun sp =>
          if sp.percent ≤ 0 then 0
          else (contribOf mort force py g sp sch).survivingTrees)).sum)
        (List.zipWith (stepAgg mort force py g sch) setup per)
      refine ⟨?_, ?_, ?_⟩
      · rw [h1]; simp [add_assoc]
      · rw [h2]; simp [add_assoc]
      · rw [h3]; simp [add_assoc]

/-- The resolved species list of a calculation. -/
noncomputable def setupOf (jsFun : JsEvalOracle) (inp : CalcInput) :
    List Setup :=
  inp.rows.map (speciesSetupRow jsFun inp.defaultGrowthRate)

/-- The `YearRecord` of model year `g` of a calculation. -/
noncomputable def yearRecOf (jsFun : JsEvalOracle) (inp : CalcInput) (g : ℕ) :
    YearRecord :=
  yearRec (mortalityFraction inp) inp.forceYearZeroZero inp.plantingYear
    (buildSchedule inp) (setupOf jsFun inp) g

theorem calculate_yearly (jsFun : JsEvalOracle) (inp : CalcInput) :
    (calculate jsFun inp).yearlyBreakdown
      = (List.range
          (inp.creditingEndYear - inp.plantingYear + 1).toNat).map
          (yearRecOf jsFun inp) := rfl

theorem calculate_total (jsFun : JsEvalOracle) (inp : CalcInput) :
    (calculate jsFun inp).totalCredits
      = ((calculate jsFun inp).yearlyBreakdown.map (fun d => d.credits)).sum :=
  rfl

theorem calculate_summary (jsFun : JsEvalOracle) (inp : CalcInput) :
    (calculate jsFun inp).speciesSummary
      = (setupOf jsFun inp).map (fun sp =>
          { speciesId := sp.id
            name := sp.name
            totalCredits := ((calculate jsFun inp).yearlyBreakdown.map (fun d =>
              match d.perSpecies.find? (fun p => p.speciesId == sp.id) with
              | some p => p.credits
              | none => 0)).sum }) := rfl

theorem yearRec_perSpecies (mort : ℝ) (force : Bool) (py : ℤ)
    (scheduled : List (ℤ × ℝ)) (setup : List Setup) (g : ℕ) :
    (yearRec mort force py scheduled setup g).perSpecies
      = setup.map (fun sp =>
          scheduled.foldl (aggStep mort force py g sp) (initAgg sp)) :=
  schedStep_foldl_per mort force py g setup scheduled initAgg 0 0 0

theorem find?_map_of_nodup (setup : List Setup) (F : Setup → SpAgg)
    (hF : ∀ sp, (F sp).speciesId = sp.id)
    (hnd : (setup.map Setup.id).Nodup) :
    ∀ (i : ℕ) (hi : i < setup.length),
      (setup.map F).find? (fun p => p.speciesId == (setup.get ⟨i, hi⟩).id)
        = some (F (setup.get ⟨i, hi⟩)) := by
  induction setup with
  | nil => intro i hi; exact absurd hi (by simp)
  | cons a t ih =>
    intro i hi
    rw [List.map_cons] at hnd
    obtain ⟨ha, ht⟩ := List.nodup_cons.mp hnd
    cases i with
    | zero =>
      have hpred : ((F a).speciesId == a.id) = true := by
        simp [hF a]
      simp [List.find?_cons_of_pos, hpred]
    | succ j =>
      have hj : j < t.length := by simpa using hi
      have hget : (a :: t).get ⟨j + 1, hi⟩ = t.get ⟨j, hj⟩ := rfl
      have hmem : (t.get ⟨j, hj⟩).id ∈ t.map Setup.id :=
        List.mem_map_of_mem Setup.id (t.get_mem j hj)
      have hne : (((F a).speciesId == (t.get ⟨j, hj⟩).id)) = false := by
        simp only [beq_eq_false_iff_ne, ne_eq, hF a]
        intro heq
        exact ha (by rw [heq]; exact hmem)
      rw [hget, List.map_cons, List.find?_cons, hne]
      simpa using ih ht j hj

theorem setupOf_ids (jsFun : JsEvalOracle) (inp : CalcInput) :
    (setupOf jsFun inp).map Setup.id = inp.rows.map SpeciesRowP.id := by
  simp only [setupOf, List.map_map]
  rfl

theorem getD_map_of_lt {α β : Type} (f : α → β) (l : List α) (i : ℕ)
    (hi : i < l.length) (d : β) :
    (l.map f).getD i d = f (l.get ⟨i, hi⟩) := by
  rw [List.getD_eq_getElem?_getD]
  simp [List.getElem?_map, List.getElem?_eq_getElem hi]

theorem aggFold_speciesId (inp : CalcInput) (g : ℕ)
    (sp : Setup) :
    ((buildSchedule inp).foldl
      (aggStep (mortalityFraction inp) inp.forceYearZeroZero
        inp.plantingYear g sp) (initAgg sp)).speciesId = sp.id :=
  (aggStep_foldl_id (mortalityFraction inp) inp.forceYearZeroZero
    inp.plantingYear g sp (buildSchedule inp) (initAgg sp)).1

/-- C1: for every input with `creditingEndYear ≥ plantingYear` (and species
rows carrying distinct ids), the calculation produces exactly
`creditingEndYear − plantingYear + 1` year records in increasing year order,
record `g` carrying year `plantingYear + g`; `totalCredits` is the sum of the
yearly credits, and each species' summary entry is the sum over the years of
that species' per-year credits. -/
theorem calculate_year_structure (jsFun : JsEvalOracle) (inp : CalcInput)
    (hord : inp.plantingYear ≤ inp.creditingEndYear)
    (hids : (inp.rows.map SpeciesRowP.id).Nodup) :
    ((calculate jsFun inp).yearlyBreakdown.length : ℤ)
        = inp.creditingEndYear - inp.plantingYear + 1
    ∧ (∀ (g : ℕ) (hg : g < (calculate jsFun inp).yearlyBreakdown.length),
        ((calculate jsFun inp).yearlyBreakdown.get ⟨g, hg⟩).year
          = inp.plantingYear + (g : ℤ))
    ∧ (calculate jsFun inp).totalCredits
        = ((calculate jsFun inp).yearlyBreakdown.map (fun d => d.credits)).sum
    ∧ ∀ (i : ℕ) (hi : i < (calculate jsFun inp).speciesSummary.length),
        ((calculate jsFun inp).speciesSummary.get ⟨i, hi⟩).totalCredits
          = ((calculate jsFun inp).yearlyBreakdown.map
              (fun d => (d.perSpecies.getD i dfltAgg).credits)).sum := by
  refine ⟨?_, ?_, calculate_total jsFun inp, ?_⟩
  · rw [calculate_yearly]
    simp only [List.length_map, List.length_range]
    rw [Int.toNat_of_nonneg (by omega)]
  · intro g hg
    have hg' : g < (List.range
        (inp.creditingEndYear - inp.plantingYear + 1).toNat).length := by
      rw [calculate_yearly] at hg
      simpa using hg
    rw [List.get_of_eq (calculate_yearly jsFun inp) ⟨g, hg⟩]
    simp only [List.get_eq_getElem, List.getElem_map, List.getElem_range]
    rfl
  · intro i hi
    have hleni : i < (setupOf jsFun inp).length := by
      rw [calculate_summary] at hi
      simpa using hi
    rw [List.get_of_eq (calculate_summary jsFun inp) ⟨i, hi⟩]
    simp only [List.get_eq_getElem, List.getElem_map]
    refine congrArg List.sum (List.map_congr_left ?_)
    intro d hd
    rw [calculate_yearly] at hd
    obtain ⟨g, _, rfl⟩ := List.mem_map.mp hd
    have hids' : ((setupOf jsFun inp).map Setup.id).Nodup := by
      rw [setupOf_ids]; exact hids
    have hFid : ∀ sp : Setup,
        ((buildSchedule inp).foldl
          (aggStep (mortalityFraction inp) inp.forceYearZeroZero
            inp.plantingYear g sp) (initAgg sp)).speciesId = sp.id :=
      fun sp => aggFold_speciesId inp g sp
    have hper : (yearRecOf jsFun inp g).perSpecies
        = (setupOf jsFun inp).map (fun sp =>
            (buildSchedule inp).foldl
              (aggStep (mortalityFraction inp) inp.forceYearZeroZero
                inp.plantingYear g sp) (initAgg sp)) :=
      yearRec_perSpecies (mortalityFraction inp) inp.forceYearZeroZero
        inp.plantingYear (buildSchedule inp) (setupOf jsFun inp) g
    have hfind := find?_map_of_nodup (setupOf jsFun inp) _ hFid hids' i hleni
    have hgetD := getD_map_of_lt
      (fun sp : Setup =>
        (buildSchedule inp).foldl
          (aggStep (mortalityFraction inp) inp.forceYearZeroZero
            inp.plantingYear g sp) (initAgg sp))
      (setupOf jsFun inp) i hleni dfltAgg
    simp only [List.get_eq_getElem] at hfind hgetD
    rw [hper, hfind, hgetD]

theorem sum_map_swap {α β : Type} (l : List α) (m : List β) (f : α → β → ℝ) :
    (l.map (fun x => (m.map (fun y => f x y)).sum)).sum
      = (m.map (fun y => (l.map (fun x => f x y)).sum)).sum := by
  induction l with
  | nil =>
    simp only [List.map_nil, List.sum_nil]
    rw [eq_comm, List.sum_eq_zero]
    intro x hx
    obtain ⟨y, _, rfl⟩ := List.mem_map.mp hx
    simp
  | cons a t ih =>
    simp only [List.map_cons, List.sum_cons, ih]
    rw [← List.sum_map_add]

theorem aggFold_fields (mort : ℝ) (force : Bool) (py : ℤ) (g : ℕ)
    (scheduled : List (ℤ × ℝ)) (sp : Setup) :
    (scheduled.foldl (aggStep mort force py g sp) (initAgg sp)).credits
        = (if sp.percent ≤ 0 then 0
           else ((scheduled.filter (activeP py g)).map
             (fun sch => (contribOf mort force py g sp sch).credits)).sum)
    ∧ (scheduled.foldl (aggStep mort force py g sp) (initAgg sp)).biomassKg
        = (if sp.percent ≤ 0 then 0
           else ((scheduled.filter (activeP py g)).map
             (fun sch => (contribOf mort force py g sp sch).biomassKg)).sum)
    ∧ (scheduled.foldl (aggStep mort force py g sp) (initAgg sp)).survivingTrees
        = (if sp.percent ≤ 0 then 0
           else ((scheduled.filter (activeP py g)).map
             (fun sch => (contribOf mort force py g sp sch).survivingTrees)).sum) := by
  by_cases hperc : sp.percent ≤ 0
  · rw [aggStep_foldl_neg mort force py g sp hperc scheduled (initAgg sp)]
    simp [initAgg, hperc]
  · have hp : 0 < sp.percent := not_le.mp hperc
    rw [aggStep_foldl_spec mort force py g sp hp scheduled (initAgg sp)]
    simp [initAgg, hperc]

theorem yearRec_totals_eq_perSpecies_sums (mort : ℝ) (force : Bool) (py : ℤ)
    (scheduled : List (ℤ × ℝ)) (setup : List Setup) (g : ℕ) :
    (yearRec mort force py scheduled setup g).credits
        = ((yearRec mort force py scheduled setup g).perSpecies.map
            (fun p => p.credits)).sum
    ∧ (yearRec mort force py scheduled setup g).biomassKg
        = ((yearRec mort force py scheduled setup g).perSpecies.map
            (fun p => p.biomassKg)).sum
    ∧ (yearRec mort force py scheduled setup g).survivingTrees
        = ((yearRec mort force py scheduled setup g).perSpecies.map
            (fun p => p.survivingTrees)).sum := by
  have hper := yearRec_perSpecies mort force py scheduled setup g
  obtain ⟨ht1, ht2, ht3⟩ := schedStep_foldl_totals mort force py g setup
    scheduled 0 0 0 (setup.map initAgg)
  have hcred : (yearRec mort force py scheduled setup g).credits
      = ((scheduled.filter (activeP py g)).map
          (fun sch => (setup.map (fun sp =>
            if sp.percent ≤ 0 then 0
            else (contribOf mort force py g sp sch).credits)).sum)).sum := by
    have : (yearRec mort force py scheduled setup g).credits
        = (scheduled.foldl (schedStep mort force py g setup)
            ⟨0, 0, 0, setup.map initAgg⟩).credits := rfl
    rw [this, ht1, zero_add]
  have hbio : (yearRec mort force py scheduled setup g).biomassKg
      = ((scheduled.filter (activeP py g)).map
          (fun sch => (setup.map (fun sp =>
            if sp.percent ≤ 0 then 0
            else (contribOf mort force py g sp sch).biomassKg)).sum)).sum := by
    have : (yearRec mort force py scheduled setup g).biomassKg
        = (scheduled.foldl (schedStep mort force py g setup)
            ⟨0, 0, 0, setup.map initAgg⟩).biomassKg := rfl
    rw [this, ht2, zero_add]
  have htre : (yearRec mort force py scheduled setup g).survivingTrees
      = ((scheduled.filter (activeP py g)).map
          (fun sch => (setup.map (fun sp =>
            if sp.percent ≤ 0 then 0
            else (contribOf mort force py g sp sch).survivingTrees)).sum)).sum := by
    have : (yearRec mort force py scheduled setup g).survivingTrees
        = (scheduled.foldl (schedStep mort force py g setup)
            ⟨0, 0, 0, setup.map initAgg⟩).trees := rfl
    rw [this, ht3, zero_add]
  have key : ∀ proj : SpAgg → ℝ,
      (∀ sp : Setup,
        proj (scheduled.foldl (aggStep mort force py g sp) (initAgg sp))
          = (if sp.percent ≤ 0 then 0
             else ((scheduled.filter (activeP py g)).map
               (fun sch => proj (contribOf mort force py g sp sch))).sum)) →
      ((scheduled.filter (activeP py g)).map
          (fun sch => (setup.map (fun sp =>
            if sp.percent ≤ 0 then 0
            else proj (contribOf mort force py g sp sch))).sum)).sum
        = ((yearRec mort force py scheduled setup g).perSpecies.map
            (fun p => proj p)).sum := by
    intro proj hproj
    rw [hper, List.map_map]
    have hpt : setup.map (fun sp => proj
        (scheduled.foldl (aggStep mort force py g sp) (initAgg sp)))
        = setup.map (fun sp =>
          ((scheduled.filter (activeP py g)).map (fun sch =>
            if sp.percent ≤ 0 then 0
            else proj (contribOf mort force py g sp sch))).sum) := by
      refine List.map_congr_left ?_
      intro sp _
      rw [hproj sp]
      by_cases hperc : sp.percent ≤ 0
      · simp [hperc]
      · simp [hperc]
    have hswap := sum_map_swap setup (scheduled.filter (activeP py g))
      (fun sp sch =>
        if sp.percent ≤ 0 then 0
        else proj (contribOf mort force py g sp sch))
    calc ((scheduled.filter (activeP py g)).map
        (fun sch => (setup.map (fun sp =>
          if sp.percent ≤ 0 then 0
          else proj (contribOf mort force py g sp sch))).sum)).sum
        = (setup.map (fun sp =>
            ((scheduled.filter (activeP py g)).map (fun sch =>
              if sp.percent ≤ 0 then 0
              else proj (contribOf mort force py g sp sch))).sum)).sum := by
          rw [hswap]
      _ = (setup.map (fun sp => proj
            (scheduled.foldl (aggStep mort force py g sp) (initAgg sp)))).sum := by
          rw [hpt]
      _ = (List.map ((fun p => proj p) ∘ fun sp =>
            scheduled.foldl (aggStep mort force py g sp) (initAgg sp)) setup).sum := rfl
  refine ⟨?_, ?_, ?_⟩
  · rw [hcred]
    exact key (fun p => p.credits)
      (fun sp => (aggFold_fields mort force py g scheduled sp).1)
  · rw [hbio]
    exact key (fun p => p.biomassKg)
      (fun sp => (aggFold_fields mort force py g scheduled sp).2.1)
  · rw [htre]
    exact key (fun p => p.survivingTrees)
      (fun sp => (aggFold_fields mort force py g scheduled sp).2.2)

theorem yearly_get_eq (jsFun : JsEvalOracle) (inp : CalcInput) (g : ℕ)
    (hg : g < (calculate jsFun inp).yearlyBreakdown.length) :
    (calculate jsFun inp).yearlyBreakdown.get ⟨g, hg⟩
      = yearRecOf jsFun inp g := by
  rw [List.get_of_eq (calculate_yearly jsFun inp) ⟨g, hg⟩]
  simp only [List.get_eq_getElem, List.getElem_map, List.getElem_range]

theorem yearRecOf_entry (jsFun : JsEvalOracle) (inp : CalcInput) (g i : ℕ)
    (hi : i < (setupOf jsFun inp).length) :
    (yearRecOf jsFun inp g).perSpecies.getD i dfltAgg
      = (buildSchedule inp).foldl
          (aggStep (mortalityFraction inp) inp.forceYearZeroZero
            inp.plantingYear g ((setupOf jsFun inp).get ⟨i, hi⟩))
          (initAgg ((setupOf jsFun inp).get ⟨i, hi⟩)) := by
  have hper := yearRec_perSpecies (mortalityFraction inp)
    inp.forceYearZeroZero inp.plantingYear (buildSchedule inp)
    (setupOf jsFun inp) g
  have : (yearRecOf jsFun inp g).perSpecies
      = (setupOf jsFun inp).map (fun sp =>
          (buildSchedule inp).foldl
            (aggStep (mortalityFraction inp) inp.forceYearZeroZero
              inp.plantingYear g sp) (initAgg sp)) := hper
  rw [this, getD_map_of_lt _ (setupOf jsFun inp) i hi]

/-- Trivial evaluation oracle used in concrete instances: every dynamic
evaluation fails. -/
def oracle0 : JsEvalOracle := fun _ _ => none

/-- Concrete species row used in concrete instances. -/
noncomputable def rowA : SpeciesRowP :=
  { id := "s1"
    name := "Teak"
    region := .dry
    percent := 100
    inputMode := .spacing
    spacing := 3
    density := 0
    growthRateCmYr := none
    initialDbhCm := some 0
    useCustomEq := false
    customEquation := [] }

/-- Concrete calculator input used in concrete instances. -/
noncomputable def inpA : CalcInput :=
  { plantingYear := 2025
    creditingEndYear := 2027
    mortalityRatePct := 10
    considerMortality := true
    defaultGrowthRate := 0.2
    forceYearZeroZero := true
    useSchedule := false
    scheduleYears := 5
    scheduleMode := .custom
    customSchedule := []
    constantAreaPerYear := 0
    projectAreaHa := 1
    rows := [rowA] }

/-- Witness for `calculate_year_structure`: the concrete three-year input
produces records and sums as claimed. -/
theorem calculate_year_structure_witness :
    ((calculate oracle0 inpA).yearlyBreakdown.length : ℤ)
      = inpA.creditingEndYear - inpA.plantingYear + 1 :=
  (calculate_year_structure oracle0 inpA (by decide) (by decide)).1

theorem c3w_len : 0 < (calculate oracle0 inpA).yearlyBreakdown.length := by
  decide

theorem c3w_leni : 0 < (setupOf oracle0 inpA).length := by
  decide

theorem c3w_perc : 0 < ((setupOf oracle0 inpA).get ⟨0, c3w_leni⟩).percent := by
  show 0 < (speciesSetupRow oracle0 inpA.defaultGrowthRate rowA).percent
  simp only [speciesSetupRow, clampR, rowA]
  norm_num

/-- C3: each active cohort of a positive-share species contributes
`share/100 · areaHa · density · (1 − mort)^age` surviving trees (mort being
the clamped mortality fraction when enabled and 0 when disabled), credits are
biomass times `0.47 · (44/12) / 1000`, and these contributions are summed
into the species' accumulator and the year totals. -/
theorem cohort_contribution_formula (jsFun : JsEvalOracle) (inp : CalcInput)
    (g i : ℕ)
    (hg : g < (calculate jsFun inp).yearlyBreakdown.length)
    (hi : i < (setupOf jsFun inp).length)
    (hp : 0 < ((setupOf jsFun inp).get ⟨i, hi⟩).percent) :
    (((calculate jsFun inp).yearlyBreakdown.get ⟨g, hg⟩).perSpecies.getD i
        dfltAgg).survivingTrees
      = (((buildSchedule inp).filter (activeP inp.plantingYear g)).map
          (fun sch =>
            ((setupOf jsFun inp).get ⟨i, hi⟩).percent / 100 * sch.2
              * ((setupOf jsFun inp).get ⟨i, hi⟩).densityHa
              * (1 - (if inp.considerMortality then
                    max 0 (min 1 (inp.mortalityRatePct / 100)) else 0))
                ^ (cohortAgeOf inp.plantingYear g sch.1))).sum
    ∧ (((calculate jsFun inp).yearlyBreakdown.get ⟨g, hg⟩).perSpecies.getD i
        dfltAgg).credits
      = (((calculate jsFun inp).yearlyBreakdown.get ⟨g, hg⟩).perSpecies.getD i
          dfltAgg).biomassKg * 0.47 * (44 / 12) / 1000
    ∧ ((calculate jsFun inp).yearlyBreakdown.get ⟨g, hg⟩).credits
      = (((calculate jsFun inp).yearlyBreakdown.get ⟨g, hg⟩).perSpecies.map
          (fun p => p.credits)).sum
    ∧ ((calculate jsFun inp).yearlyBreakdown.get ⟨g, hg⟩).biomassKg
      = (((calculate jsFun inp).yearlyBreakdown.get ⟨g, hg⟩).perSpecies.map
          (fun p => p.biomassKg)).sum
    ∧ ((calculate jsFun inp).yearlyBreakdown.get ⟨g, hg⟩).survivingTrees
      = (((calculate jsFun inp).yearlyBreakdown.get ⟨g, hg⟩).perSpecies.map
          (fun p => p.survivingTrees)).sum := by
  have hmort : (if inp.considerMortality then
      max 0 (min 1 (inp.mortalityRatePct / 100)) else 0)
      = mortalityFraction inp := rfl
  have hyr := yearly_get_eq jsFun inp g hg
  have hentry := yearRecOf_entry jsFun inp g i hi
  have hspec := aggStep_foldl_spec (mortalityFraction inp)
    inp.forceYearZeroZero inp.plantingYear g
    ((setupOf jsFun inp).get ⟨i, hi⟩) hp (buildSchedule inp)
    (initAgg ((setupOf jsFun inp).get ⟨i, hi⟩))
  have htot := yearRec_totals_eq_perSpecies_sums (mortalityFraction inp)
    inp.forceYearZeroZero inp.plantingYear (buildSchedule inp)
    (setupOf jsFun inp) g
  refine ⟨?_, ?_, ?_, ?_, ?_⟩
  · rw [hyr, hentry, hspec]
    show (0 : ℝ) + _ = _
    rw [zero_add, hmort]
    refine congrArg List.sum (List.map_congr_left ?_)
    intro sch _
    simp [contribOf, contrib]
  · rw [hyr, hentry, hspec]
    show (0 : ℝ) + _ = ((0 : ℝ) + _) * 0.47 * (44 / 12) / 1000
    rw [zero_add, zero_add]
    have hcb : ∀ sch : ℤ × ℝ,
        (contribOf (mortalityFraction inp) inp.forceYearZeroZero
          inp.plantingYear g ((setupOf jsFun inp).get ⟨i, hi⟩) sch).credits
        = (contribOf (mortalityFraction inp) inp.forceYearZeroZero
            inp.plantingYear g ((setupOf jsFun inp).get ⟨i, hi⟩) sch).biomassKg
          * (0.47 * (44 / 12) / 1000) := by
      intro sch
      simp only [contribOf, contrib, kgBiomassToTonsCO2e]
      ring
    rw [List.map_congr_left (fun sch _ => hcb sch),
      List.sum_map_mul_right]
    ring
  · rw [hyr]; exact htot.1
  · rw [hyr]; exact htot.2.1
  · rw [hyr]; exact htot.2.2

/-- Witness for `cohort_contribution_formula`: the concrete input's first
year record relates per-species credits to biomass by the conversion
constant. -/
theorem cohort_contribution_formula_witness :
    (((calculate oracle0 inpA).yearlyBreakdown.get ⟨0, c3w_len⟩).perSpecies.getD
        0 dfltAgg).credits
      = (((calculate oracle0 inpA).yearlyBreakdown.get
            ⟨0, c3w_len⟩).perSpecies.getD 0 dfltAgg).biomassKg
        * 0.47 * (44 / 12) / 1000 :=
  (cohort_contribution_formula oracle0 inpA 0 0 c3w_len c3w_leni c3w_perc).2.1

theorem rowA_setup_percent_pos (jsFun : JsEvalOracle) (d : ℝ) :
    0 < (speciesSetupRow jsFun d rowA).percent := by
  simp only [speciesSetupRow, clampR, rowA]
  norm_num

/-- C4: with year-zero forcing on, a cohort processed in the very model year
it is planted (age 0) adds nothing to its species' credits and biomass
accumulators regardless of the initial diameter, counts its surviving trees,
and stores 0 as the reported diameter. -/
theorem year_zero_forcing (mort : ℝ) (py : ℤ) (g : ℕ) (sch : ℤ × ℝ)
    (sp : Setup) (agg : SpAgg)
    (hsch : sch.1 - py = (g : ℤ)) (hp : 0 < sp.percent) :
    (stepAgg mort true py g sch sp agg).credits = agg.credits
    ∧ (stepAgg mort true py g sch sp agg).biomassKg = agg.biomassKg
    ∧ (stepAgg mort true py g sch sp agg).dbhCm = 0
    ∧ (stepAgg mort true py g sch sp agg).survivingTrees
        = agg.survivingTrees + sp.percent / 100 * sch.2 * sp.densityHa := by
  have hple : ¬ sp.percent ≤ 0 := not_le.mpr hp
  have hage : cohortAgeOf py g sch.1 = 0 := by
    simp [cohortAgeOf, hsch]
  refine ⟨?_, ?_, ?_, ?_⟩ <;>
    simp [stepAgg, hple, hage, contrib, kgBiomassToTonsCO2e]

/-- Witness for `year_zero_forcing`: a concrete age-0 cohort with nonzero
initial diameter stores a zero diameter. -/
theorem year_zero_forcing_witness :
    (stepAgg 0 true 2025 0 ((2025 : ℤ), (1 : ℝ))
      (speciesSetupRow oracle0 1 rowA) dfltAgg).dbhCm = 0 :=
  (year_zero_forcing 0 2025 0 ((2025 : ℤ), (1 : ℝ))
    (speciesSetupRow oracle0 1 rowA) dfltAgg (by decide)
    (rowA_setup_percent_pos oracle0 1)).2.2.1

/-- Concrete species row with a negative parsed growth rate. -/
noncomputable def rowNeg : SpeciesRowP :=
  { rowA with growthRateCmYr := some (-1) }

/-- C7 counterexample: with default rate 0.2, a species whose own rate parses
to the non-positive value −1 resolves to −1 rather than to the default, so
the claimed fallback for non-positive values does not hold. -/
theorem growthRate_resolution_counterexample :
    (speciesSetupRow oracle0 0.2 rowNeg).growthRateCmYr = -1
    ∧ (speciesSetupRow oracle0 0.2 rowNeg).growthRateCmYr ≠ (0.2 : ℝ) := by
  have h1 : (speciesSetupRow oracle0 0.2 rowNeg).growthRateCmYr = -1 := by
    show (if (-1 : ℝ) = 0 then (0.2 : ℝ) else (-1 : ℝ)) = -1
    norm_num
  refine ⟨h1, ?_⟩
  rw [h1]
  norm_num

/-- C7 (amended): the resolved growth rate falls back to the default exactly
when the species value is absent (unparseable) or zero — the JS `x || d`
idiom — and otherwise is the species' own value, negative values included. -/
theorem growthRate_resolution (jsFun : JsEvalOracle) (d : ℝ)
    (r : SpeciesRowP) :
    (r.growthRateCmYr = none → (speciesSetupRow jsFun d r).growthRateCmYr = d)
    ∧ (r.growthRateCmYr = some 0 →
        (speciesSetupRow jsFun d r).growthRateCmYr = d)
    ∧ ∀ v : ℝ, r.growthRateCmYr = some v → v ≠ 0 →
        (speciesSetupRow jsFun d r).growthRateCmYr = v := by
  refine ⟨?_, ?_, ?_⟩
  · intro h
    simp [speciesSetupRow, h]
  · intro h
    simp [speciesSetupRow, h]
  · intro v h hv
    simp [speciesSetupRow, h, hv]

/-- Witness for `growthRate_resolution`: a row with no growth rate resolves
to the default. -/
theorem growthRate_resolution_witness :
    (speciesSetupRow oracle0 0.2 rowA).growthRateCmYr = 0.2 :=
  (growthRate_resolution oracle0 0.2 rowA).1 rfl

/-- C5: the per-species biomass function returns the custom expression's
value exactly when a custom equation is configured and the (per-call)
evaluation yields a finite non-negative value; in every other case (not
configured, evaluation invalid, or negative value) it silently returns the
default regional allometry at the same diameter. -/
theorem biomassFn_custom_fallback (jsFun : JsEvalOracle) (d : ℝ)
    (r : SpeciesRowP) (D : ℝ) :
    (∀ v : ℝ, r.useCustomEq = true → r.customEquation ≠ [] →
        evalBiomassExpr jsFun D r.customEquation = some v → 0 ≤ v →
        (speciesSetupRow jsFun d r).biomassFn D = v)
    ∧ (r.useCustomEq = false ∨ r.customEquation = [] →
        (speciesSetupRow jsFun d r).biomassFn D
          = defaultAllometryBiomassKg D r.region)
    ∧ (evalBiomassExpr jsFun D r.customEquation = none →
        (speciesSetupRow jsFun d r).biomassFn D
          = defaultAllometryBiomassKg D r.region)
    ∧ ∀ v : ℝ, evalBiomassExpr jsFun D r.customEquation = some v → v < 0 →
        (speciesSetupRow jsFun d r).biomassFn D
          = defaultAllometryBiomassKg D r.region := by
  refine ⟨?_, ?_, ?_, ?_⟩
  · intro v hc hne he hv
    simp [speciesSetupRow, hc, hne, he, hv]
  · intro h
    rcases h with h | h
    · simp [speciesSetupRow, h]
    · simp [speciesSetupRow, h]
  · intro he
    by_cases hc : r.useCustomEq = true ∧ r.customEquation ≠ []
    · simp [speciesSetupRow, hc, he]
    · simp [speciesSetupRow, hc]
  · intro v he hv
    have hnn : ¬ (0 ≤ v) := not_le.mpr hv
    by_cases hc : r.useCustomEq = true ∧ r.customEquation ≠ []
    · simp [speciesSetupRow, hc, he, hnn]
    · simp [speciesSetupRow, hc]

/-- Witness for `biomassFn_custom_fallback`: a row with no custom equation
uses the default allometry. -/
theorem biomassFn_custom_fallback_witness :
    (speciesSetupRow oracle0 0.2 rowA).biomassFn 1
      = defaultAllometryBiomassKg 1 rowA.region :=
  (biomassFn_custom_fallback oracle0 0.2 rowA 1).2.1 (Or.inl rfl)

theorem mem_dropWhile_of_not (p : Char → Bool) (s : List Char) (c : Char)
    (hc : c ∈ s) (hp : p c = false) : c ∈ s.dropWhile p := by
  induction s with
  | nil => cases hc
  | cons a t ih =>
    by_cases ha : p a = true
    · rw [List.dropWhile_cons_of_pos ha]
      rcases List.mem_cons.mp hc with rfl | hct
      · rw [ha] at hp; cases hp
      · exact ih hct
    · rw [List.dropWhile_cons_of_neg ha]
      exact hc

theorem mem_trimStr_of_not_ws (s : List Char) (c : Char) (hc : c ∈ s)
    (hw : isWsChar c = false) : c ∈ trimStr s := by
  unfold trimStr
  rw [List.mem_reverse]
  refine mem_dropWhile_of_not isWsChar _ c ?_ hw
  rw [List.mem_reverse]
  exact mem_dropWhile_of_not isWsChar s c hc hw

/-- Adversarial oracle used in concrete instances: every dynamic evaluation
claims the value 1. -/
noncomputable def oracleOne : JsEvalOracle := fun _ _ => some 1

/-- C6: the evaluator is total in the model (its result is the sentinel or a
finite value), and fails closed: a character outside the whitelist, or a
blocklisted fragment in the rewritten text, forces the invalid sentinel no
matter what the dynamic evaluation would return. -/
theorem evalBiomassExpr_fails_closed (jsFun : JsEvalOracle) (D : ℝ)
    (s : List Char) :
    (evalBiomassExpr jsFun D s = none
      ∨ ∃ v : ℝ, evalBiomassExpr jsFun D s = some v)
    ∧ (((∃ c ∈ s, allowedChar c = false)
        ∨ hasBlocked (replaceD none (rewriteFns (trimStr s))) = true) →
      evalBiomassExpr jsFun D s = none) := by
  constructor
  · cases h : evalBiomassExpr jsFun D s with
    | none => exact Or.inl rfl
    | some v => exact Or.inr ⟨v, rfl⟩
  · intro h
    unfold evalBiomassExpr
    by_cases hs0 : s = []
    · simp [hs0]
    · rcases h with ⟨c, hc, hcall⟩ | hb
      · have hw : isWsChar c = false := by
          cases hcw : isWsChar c
          · rfl
          · have : allowedChar c = true := by simp [allowedChar, hcw]
            rw [this] at hcall; cases hcall
        have hmem := mem_trimStr_of_not_ws s c hc hw
        have hall : (trimStr s).all allowedChar = false := by
          cases hall' : (trimStr s).all allowedChar
          · rfl
          · rw [List.all_eq_true] at hall'
            have := hall' c hmem
            rw [hcall] at this; cases this
        simp [hs0, hall]
      · by_cases hall : (trimStr s).all allowedChar
        · simp [hs0, hall, hb]
        · simp [hs0, hall]

/-- Witness for `evalBiomassExpr_fails_closed`: the expression text
containing the `new` keyword is rejected even against an oracle that would
return 1. -/
theorem evalBiomassExpr_fails_closed_witness :
    evalBiomassExpr oracleOne 0 ("new D".toList) = none :=
  (evalBiomassExpr_fails_closed oracleOne 0 ("new D".toList)).2
    (Or.inr (by decide))

/-- C2 counterexample: at a positive-infinite diameter the source guard does
not fire (`+∞` is truthy, not NaN, and not `≤ 0`), so the function returns
`+∞` rather than the 0 the claim requires for every non-finite diameter. -/
theorem defaultAllometry_nonfinite_counterexample :
    defaultAllometryBiomassKgJ JVal.inf RegionType.dry = JVal.inf
    ∧ defaultAllometryBiomassKgJ JVal.inf RegionType.dry ≠ JVal.fin 0 := by
  constructor
  · rfl
  · intro h
    cases h

/-- C2 (amended): the default allometric function returns
`exp(-1.996 + 2.32·ln D)` (dry) and `exp(-2.134 + 2.530·ln D)` (moist) for
finite positive diameters, returns 0 for `D ≤ 0`, for NaN and for −∞, and
returns `+∞` (not 0) at `+∞`; on finite inputs it agrees with the real-valued
embedding. -/
theorem defaultAllometry_cases (region : RegionType) :
    (∀ x : ℝ, 0 < x →
      defaultAllometryBiomassKgJ (JVal.fin x) RegionType.dry
          = JVal.fin (Real.exp (-1.996 + 2.32 * Real.log x))
        ∧ defaultAllometryBiomassKgJ (JVal.fin x) RegionType.moist
          = JVal.fin (Real.exp (-2.134 + 2.530 * Real.log x)))
    ∧ (∀ x : ℝ, x ≤ 0 →
        defaultAllometryBiomassKgJ (JVal.fin x) region = JVal.fin 0)
    ∧ defaultAllometryBiomassKgJ JVal.nan region = JVal.fin 0
    ∧ defaultAllometryBiomassKgJ JVal.ninf region = JVal.fin 0
    ∧ defaultAllometryBiomassKgJ JVal.inf region = JVal.inf
    ∧ ∀ x : ℝ, defaultAllometryBiomassKgJ (JVal.fin x) region
        = JVal.fin (defaultAllometryBiomassKg x region) := by
  refine ⟨?_, ?_, rfl, rfl, ?_, ?_⟩
  · intro x hx
    have hnle : ¬ x ≤ 0 := not_le.mpr hx
    constructor
    · simp [defaultAllometryBiomassKgJ, hnle, jsLog, hx, jsMulPos, jsAddC,
        jsExp]
    · simp [defaultAllometryBiomassKgJ, hnle, jsLog, hx, jsMulPos, jsAddC,
        jsExp]
  · intro x hx
    simp [defaultAllometryBiomassKgJ, hx]
  · cases region <;> rfl
  · intro x
    by_cases hx : x ≤ 0
    · simp [defaultAllometryBiomassKgJ, defaultAllometryBiomassKg, hx]
    · have hx' : 0 < x := not_le.mp hx
      cases region <;>
        simp [defaultAllometryBiomassKgJ, defaultAllometryBiomassKg, hx, hx',
          jsLog, jsMulPos, jsAddC, jsExp]

/-- Witness for `defaultAllometry_cases`: the dry-region value at the
positive diameter 1 is the stated exponential. -/
theorem defaultAllometry_cases_witness :
    defaultAllometryBiomassKgJ (JVal.fin 1) RegionType.dry
      = JVal.fin (Real.exp (-1.996 + 2.32 * Real.log 1)) :=
  ((defaultAllometry_cases RegionType.dry).1 1 (by norm_num)).1

theorem mem_of_getLast_opt {α : Type} : ∀ (l : List α) (x : α),
    l.getLast? = some x → x ∈ l
  | [], _, h => by cases h
  | [a], x, h => by
    have hax : a = x := by simpa using h
    simp [hax]
  | a :: b :: u, x, h => by
    rw [List.getLast?_cons_cons] at h
    exact List.mem_cons_of_mem a (mem_of_getLast_opt (b :: u) x h)

theorem getLast_opt_max : ∀ (l : List (ℤ × ℝ)),
    l.Pairwise (fun a b => a.1 < b.1) → ∀ last : ℤ × ℝ,
    l.getLast? = some last → ∀ x ∈ l, x.1 ≤ last.1
  | [], _, _, hl => by cases hl
  | [a], _, last, hl => by
    have hax : a = last := by simpa using hl
    intro x hx
    have hxa : x = a := by simpa using hx
    rw [hxa, hax]
  | a :: b :: u, hpw, last, hl => by
    rw [List.getLast?_cons_cons] at hl
    obtain ⟨hab, ht⟩ := List.pairwise_cons.mp hpw
    intro x hx
    rcases List.mem_cons.mp hx with rfl | hx'
    · exact le_of_lt (hab last (mem_of_getLast_opt (b :: u) last hl))
    · exact getLast_opt_max (b :: u) ht last hl x hx'

theorem buildSchedule_pairwise (inp : CalcInput) :
    (buildSchedule inp).Pairwise (fun a b => a.1 < b.1) := by
  unfold buildSchedule
  by_cases h : inp.useSchedule
  · rw [if_pos h, List.pairwise_map]
    refine List.Pairwise.imp ?_ (List.pairwise_lt_range _)
    intro a b hab
    show inp.plantingYear + (a : ℤ) < inp.plantingYear + (b : ℤ)
    omega
  · rw [if_neg h]
    exact List.pairwise_singleton _ _

/-- C8: when two or more cohorts of a positive-share species are active in a
model year, the species' per-year credits, biomass and surviving trees are
the sums over all active cohorts, while the reported diameter is the
last-processed cohort's — the active cohort with the greatest (latest)
schedule year. -/
theorem same_species_multi_cohort (jsFun : JsEvalOracle) (inp : CalcInput)
    (g i : ℕ)
    (hg : g < (calculate jsFun inp).yearlyBreakdown.length)
    (hi : i < (setupOf jsFun inp).length)
    (hp : 0 < ((setupOf jsFun inp).get ⟨i, hi⟩).percent)
    (hmany : 2 ≤ ((buildSchedule inp).filter
        (activeP inp.plantingYear g)).length) :
    (((calculate jsFun inp).yearlyBreakdown.get ⟨g, hg⟩).perSpecies.getD i
        dfltAgg).credits
      = (((buildSchedule inp).filter (activeP inp.plantingYear g)).map
          (fun sch => (contribOf (mortalityFraction inp)
            inp.forceYearZeroZero inp.plantingYear g
            ((setupOf jsFun inp).get ⟨i, hi⟩) sch).credits)).sum
    ∧ (((calculate jsFun inp).yearlyBreakdown.get ⟨g, hg⟩).perSpecies.getD i
        dfltAgg).biomassKg
      = (((buildSchedule inp).filter (activeP inp.plantingYear g)).map
          (fun sch => (contribOf (mortalityFraction inp)
            inp.forceYearZeroZero inp.plantingYear g
            ((setupOf jsFun inp).get ⟨i, hi⟩) sch).biomassKg)).sum
    ∧ (((calculate jsFun inp).yearlyBreakdown.get ⟨g, hg⟩).perSpecies.getD i
        dfltAgg).survivingTrees
      = (((buildSchedule inp).filter (activeP inp.plantingYear g)).map
          (fun sch => (contribOf (mortalityFraction inp)
            inp.forceYearZeroZero inp.plantingYear g
            ((setupOf jsFun inp).get ⟨i, hi⟩) sch).survivingTrees)).sum
    ∧ ∃ last : ℤ × ℝ,
        ((buildSchedule inp).filter (activeP inp.plantingYear g)).getLast?
            = some last
        ∧ (((calculate jsFun inp).yearlyBreakdown.get ⟨g, hg⟩).perSpecies.getD
            i dfltAgg).dbhCm
          = (contribOf (mortalityFraction inp) inp.forceYearZeroZero
              inp.plantingYear g ((setupOf jsFun inp).get ⟨i, hi⟩) last).dbhCm
        ∧ ∀ sch ∈ (buildSchedule inp).filter (activeP inp.plantingYear g),
            sch.1 ≤ last.1 := by
  have hne : ((buildSchedule inp).filter (activeP inp.plantingYear g)) ≠ [] := by
    intro h
    rw [h] at hmany
    simp at hmany
  have hsome : (((buildSchedule inp).filter
      (activeP inp.plantingYear g)).getLast?).isSome = true := by
    rw [List.getLast?_isSome]
    exact hne
  obtain ⟨last, hlast⟩ := Option.isSome_iff_exists.mp hsome
  rw [yearly_get_eq jsFun inp g hg, yearRecOf_entry jsFun inp g i hi,
    aggStep_foldl_spec (mortalityFraction inp) inp.forceYearZeroZero
      inp.plantingYear g ((setupOf jsFun inp).get ⟨i, hi⟩) hp
      (buildSchedule inp) (initAgg ((setupOf jsFun inp).get ⟨i, hi⟩))]
  refine ⟨by simp [initAgg, contribOf], by simp [initAgg, contribOf],
    by simp [initAgg, contribOf], last, hlast, ?_, ?_⟩
  · simp [hlast, contribOf]
  · exact getLast_opt_max _
      (List.Pairwise.sublist (List.filter_sublist _)
        (buildSchedule_pairwise inp)) last hlast

/-- Concrete two-year constant-schedule input used in concrete instances. -/
noncomputable def inpB : CalcInput :=
  { plantingYear := 2025
    creditingEndYear := 2026
    mortalityRatePct := 0
    considerMortality := false
    defaultGrowthRate := 0.2
    forceYearZeroZero := true
    useSchedule := true
    scheduleYears := 2
    scheduleMode := .constant
    customSchedule := []
    constantAreaPerYear := 1
    projectAreaHa := 0
    rows := [rowA] }

theorem c8w_len : 1 < (calculate oracle0 inpB).yearlyBreakdown.length := by
  decide

theorem c8w_leni : 0 < (setupOf oracle0 inpB).length := by
  decide

theorem c8w_perc : 0 < ((setupOf oracle0 inpB).get ⟨0, c8w_leni⟩).percent := by
  show 0 < (speciesSetupRow oracle0 inpB.defaultGrowthRate rowA).percent
  exact rowA_setup_percent_pos oracle0 inpB.defaultGrowthRate

theorem c8w_two : 2 ≤ ((buildSchedule inpB).filter
    (activeP inpB.plantingYear 1)).length := by
  decide

/-- Witness for `same_species_multi_cohort`: with a two-year constant
schedule, in the second model year both cohorts are active and the species
credits are the sum over both cohorts' contributions. -/
theorem same_species_multi_cohort_witness :
    (((calculate oracle0 inpB).yearlyBreakdown.get ⟨1, c8w_len⟩).perSpecies.getD
        0 dfltAgg).credits
      = (((buildSchedule inpB).filter (activeP inpB.plantingYear 1)).map
          (fun sch => (contribOf (mortalityFraction inpB)
            inpB.forceYearZeroZero inpB.plantingYear 1
            ((setupOf oracle0 inpB).get ⟨0, c8w_leni⟩) sch).credits)).sum :=
  (same_species_multi_cohort oracle0 inpB 1 0 c8w_len c8w_leni c8w_perc
    c8w_two).1

theorem calc_len (jsFun : JsEvalOracle) (inp : CalcInput) :
    (calculate jsFun inp).yearlyBreakdown.length
      = (inp.creditingEndYear - inp.plantingYear + 1).toNat := by
  rw [calculate_yearly]
  simp

/-- C9 (amended): the planting schedule always has at most 200 entries, but
the number of modeled years is exactly `creditingEndYear − plantingYear + 1`
with no clamp inside the calculation, so the per-run work is finite but not
bounded by any constant over all inputs. -/
theorem schedule_bound_years_exact (jsFun : JsEvalOracle) (inp : CalcInput) :
    (buildSchedule inp).length ≤ 200
    ∧ (calculate jsFun inp).yearlyBreakdown.length
        = (inp.creditingEndYear - inp.plantingYear + 1).toNat := by
  refine ⟨?_, calc_len jsFun inp⟩
  unfold buildSchedule
  by_cases h : inp.useSchedule
  · rw [if_pos h]
    simp only [List.length_map, List.length_range]
    have : clampI inp.scheduleYears 0 200 ≤ 200 := by
      unfold clampI
      omega
    omega
  · rw [if_neg h]
    simp

/-- C9 counterexample: there is no uniform bound on the number of modeled
years — for every candidate bound some valid input (with
`creditingEndYear ≥ plantingYear`) exceeds it, so the schedule clamp alone
does not bound the work of a calculation. -/
theorem modeled_years_unbounded :
    ¬ ∃ B : ℕ, ∀ inp : CalcInput,
      inp.plantingYear ≤ inp.creditingEndYear →
      (calculate oracle0 inp).yearlyBreakdown.length ≤ B := by
  rintro ⟨B, hB⟩
  have h := hB { inpA with plantingYear := 0, creditingEndYear := (B : ℤ) }
    (by simp)
  rw [calc_len] at h
  simp only at h
  omega

/-! ## Non-negativity of the calculation's outputs -/

theorem mortalityFraction_mem (inp : CalcInput) :
    0 ≤ mortalityFraction inp ∧ mortalityFraction inp ≤ 1 := by
  unfold mortalityFraction clampR
  by_cases h : inp.considerMortality
  · rw [if_pos h]
    exact ⟨le_max_left _ _, max_le (by norm_num) (min_le_left _ _)⟩
  · rw [if_neg h]
    norm_num

theorem setup_percent_nonneg (jsFun : JsEvalOracle) (d : ℝ)
    (r : SpeciesRowP) : 0 ≤ (speciesSetupRow jsFun d r).percent := by
  show (0 : ℝ) ≤ max 0 (min 100 r.percent)
  exact le_max_left _ _

theorem setup_density_nonneg (jsFun : JsEvalOracle) (d : ℝ)
    (r : SpeciesRowP) : 0 ≤ (speciesSetupRow jsFun d r).densityHa := by
  show (0 : ℝ) ≤ (match r.inputMode with
    | DensityMode.density => max 0 r.density
    | DensityMode.spacing => densityFromSpacing r.spacing)
  cases r.inputMode with
  | density => exact le_max_left _ _
  | spacing =>
    unfold densityFromSpacing
    by_cases h : r.spacing ≤ 0
    · rw [if_pos h]
    · rw [if_neg h]
      exact div_nonneg (by norm_num) (mul_self_nonneg _)

theorem defaultAllometry_nonneg (D : ℝ) (region : RegionType) :
    0 ≤ defaultAllometryBiomassKg D region := by
  unfold defaultAllometryBiomassKg
  by_cases h : D ≤ 0
  · rw [if_pos h]
  · rw [if_neg h]
    cases region
    · exact (Real.exp_pos _).le
    · exact (Real.exp_pos _).le

theorem setup_biomassFn_nonneg (jsFun : JsEvalOracle) (d : ℝ)
    (r : SpeciesRowP) (D : ℝ) :
    0 ≤ (speciesSetupRow jsFun d r).biomassFn D := by
  show (0 : ℝ) ≤ (if r.useCustomEq = true ∧ r.customEquation ≠ [] then
    match evalBiomassExpr jsFun D r.customEquation with
    | some v => if 0 ≤ v then v else defaultAllometryBiomassKg D r.region
    | none => defaultAllometryBiomassKg D r.region
    else defaultAllometryBiomassKg D r.region)
  by_cases hc : r.useCustomEq = true ∧ r.customEquation ≠ []
  · rw [if_pos hc]
    cases he : evalBiomassExpr jsFun D r.customEquation with
    | none => exact defaultAllometry_nonneg D r.region
    | some v =>
      show (0 : ℝ) ≤ if 0 ≤ v then v else defaultAllometryBiomassKg D r.region
      by_cases hv : 0 ≤ v
      · rw [if_pos hv]; exact hv
      · rw [if_neg hv]; exact defaultAllometry_nonneg D r.region
  · rw [if_neg hc]
    exact defaultAllometry_nonneg D r.region

theorem buildSchedule_area_nonneg (inp : CalcInput) :
    ∀ sch ∈ buildSchedule inp, 0 ≤ sch.2 := by
  intro sch hmem
  unfold buildSchedule at hmem
  by_cases h : inp.useSchedule
  · rw [if_pos h] at hmem
    obtain ⟨i, _, rfl⟩ := List.mem_map.mp hmem
    exact le_max_left _ _
  · rw [if_neg h] at hmem
    rcases List.mem_singleton.mp hmem with rfl
    exact le_max_left _ _

theorem contrib_proj (mort : ℝ) (force : Bool) (age : ℕ) (areaHa : ℝ)
    (sp : Setup) :
    (contrib mort force age areaHa sp).survivingTrees
        = sp.percent / 100 * areaHa * sp.densityHa * (1 - mort) ^ age
    ∧ (contrib mort force age areaHa sp).biomassKg
        = (if force = true ∧ age = 0 then 0
           else sp.biomassFn ((contrib mort force age areaHa sp).dbhCm)
             * (sp.percent / 100 * areaHa * sp.densityHa * (1 - mort) ^ age))
    ∧ (contrib mort force age areaHa sp).credits
        = kgBiomassToTonsCO2e ((contrib mort force age areaHa sp).biomassKg) :=
  ⟨rfl, rfl, rfl⟩

theorem contrib_nonneg (mort : ℝ) (force : Bool) (age : ℕ) (areaHa : ℝ)
    (sp : Setup) (_hm : 0 ≤ mort) (hm1 : mort ≤ 1) (ha : 0 ≤ areaHa)
    (hpn : 0 ≤ sp.percent) (hd : 0 ≤ sp.densityHa)
    (hbf : ∀ D, 0 ≤ sp.biomassFn D) :
    0 ≤ (contrib mort force age areaHa sp).credits
    ∧ 0 ≤ (contrib mort force age areaHa sp).biomassKg
    ∧ 0 ≤ (contrib mort force age areaHa sp).survivingTrees := by
  obtain ⟨hs, hb, hc⟩ := contrib_proj mort force age areaHa sp
  have hsurv : 0 ≤ sp.percent / 100 * areaHa * sp.densityHa
      * (1 - mort) ^ age := by
    have h1m : (0 : ℝ) ≤ 1 - mort := by linarith
    exact mul_nonneg
      (mul_nonneg (mul_nonneg (div_nonneg hpn (by norm_num)) ha) hd)
      (pow_nonneg h1m age)
  have hbio : 0 ≤ (contrib mort force age areaHa sp).biomassKg := by
    rw [hb]
    by_cases hf : force = true ∧ age = 0
    · rw [if_pos hf]
    · rw [if_neg hf]
      exact mul_nonneg (hbf _) hsurv
  refine ⟨?_, hbio, ?_⟩
  · rw [hc]
    unfold kgBiomassToTonsCO2e
    exact div_nonneg
      (mul_nonneg (mul_nonneg hbio (by norm_num)) (by norm_num))
      (by norm_num)
  · rw [hs]
    exact hsurv

theorem perSpecies_entry_nonneg (jsFun : JsEvalOracle) (inp : CalcInput)
    (g : ℕ) :
    ∀ p ∈ (yearRecOf jsFun inp g).perSpecies,
      0 ≤ p.credits ∧ 0 ≤ p.biomassKg ∧ 0 ≤ p.survivingTrees := by
  intro p hp
  have hper := yearRec_perSpecies (mortalityFraction inp)
    inp.forceYearZeroZero inp.plantingYear (buildSchedule inp)
    (setupOf jsFun inp) g
  rw [show (yearRecOf jsFun inp g).perSpecies
      = (setupOf jsFun inp).map (fun sp =>
          (buildSchedule inp).foldl
            (aggStep (mortalityFraction inp) inp.forceYearZeroZero
              inp.plantingYear g sp) (initAgg sp)) from hper] at hp
  obtain ⟨sp, hsp, rfl⟩ := List.mem_map.mp hp
  obtain ⟨r, _, rfl⟩ := List.mem_map.mp hsp
  obtain ⟨h1, h2, h3⟩ := aggFold_fields (mortalityFraction inp)
    inp.forceYearZeroZero inp.plantingYear g (buildSchedule inp)
    (speciesSetupRow jsFun inp.defaultGrowthRate r)
  have hsum : ∀ proj : SpAgg → ℝ,
      (∀ sch ∈ buildSchedule inp,
        0 ≤ proj (contribOf (mortalityFraction inp) inp.forceYearZeroZero
          inp.plantingYear g (speciesSetupRow jsFun inp.defaultGrowthRate r)
          sch)) →
      0 ≤ (((buildSchedule inp).filter (activeP inp.plantingYear g)).map
        (fun sch => proj (contribOf (mortalityFraction inp)
          inp.forceYearZeroZero inp.plantingYear g
          (speciesSetupRow jsFun inp.defaultGrowthRate r) sch))).sum := by
    intro proj hproj
    refine List.sum_nonneg ?_
    intro x hx
    obtain ⟨sch, hsch, rfl⟩ := List.mem_map.mp hx
    exact hproj sch (List.mem_of_mem_filter hsch)
  have hcontrib : ∀ sch ∈ buildSchedule inp,
      0 ≤ (contribOf (mortalityFraction inp) inp.forceYearZeroZero
          inp.plantingYear g (speciesSetupRow jsFun inp.defaultGrowthRate r)
          sch).credits
      ∧ 0 ≤ (contribOf (mortalityFraction inp) inp.forceYearZeroZero
          inp.plantingYear g (speciesSetupRow jsFun inp.defaultGrowthRate r)
          sch).biomassKg
      ∧ 0 ≤ (contribOf (mortalityFraction inp) inp.forceYearZeroZero
          inp.plantingYear g (speciesSetupRow jsFun inp.defaultGrowthRate r)
          sch).survivingTrees := by
    intro sch hsch
    exact contrib_nonneg (mortalityFraction inp) inp.forceYearZeroZero
      (cohortAgeOf inp.plantingYear g sch.1) sch.2
      (speciesSetupRow jsFun inp.defaultGrowthRate r)
      (mortalityFraction_mem inp).1 (mortalityFraction_mem inp).2
      (buildSchedule_area_nonneg inp sch hsch)
      (setup_percent_nonneg jsFun inp.defaultGrowthRate r)
      (setup_density_nonneg jsFun inp.defaultGrowthRate r)
      (setup_biomassFn_nonneg jsFun inp.defaultGrowthRate r)
  refine ⟨?_, ?_, ?_⟩
  · rw [h1]
    by_cases hperc : (speciesSetupRow jsFun inp.defaultGrowthRate r).percent ≤ 0
    · rw [if_pos hperc]
    · rw [if_neg hperc]
      exact hsum (fun p => p.credits) (fun sch hsch => (hcontrib sch hsch).1)
  · rw [h2]
    by_cases hperc : (speciesSetupRow jsFun inp.defaultGrowthRate r).percent ≤ 0
    · rw [if_pos hperc]
    · rw [if_neg hperc]
      exact hsum (fun p => p.biomassKg)
        (fun sch hsch => (hcontrib sch hsch).2.1)
  · rw [h3]
    by_cases hperc : (speciesSetupRow jsFun inp.defaultGrowthRate r).percent ≤ 0
    · rw [if_pos hperc]
    · rw [if_neg hperc]
      exact hsum (fun p => p.survivingTrees)
        (fun sch hsch => (hcontrib sch hsch).2.2)

theorem yearRecOf_totals_nonneg (jsFun : JsEvalOracle) (inp : CalcInput)
    (g : ℕ) :
    0 ≤ (yearRecOf jsFun inp g).credits
    ∧ 0 ≤ (yearRecOf jsFun inp g).biomassKg
    ∧ 0 ≤ (yearRecOf jsFun inp g).survivingTrees := by
  obtain ⟨ht1, ht2, ht3⟩ := yearRec_totals_eq_perSpecies_sums
    (mortalityFraction inp) inp.forceYearZeroZero inp.plantingYear
    (buildSchedule inp) (setupOf jsFun inp) g
  have hmem := perSpecies_entry_nonneg jsFun inp g
  refine ⟨?_, ?_, ?_⟩
  · rw [show (yearRecOf jsFun inp g).credits = _ from ht1]
    refine List.sum_nonneg ?_
    intro x hx
    obtain ⟨p, hpmem, rfl⟩ := List.mem_map.mp hx
    exact (hmem p hpmem).1
  · rw [show (yearRecOf jsFun inp g).biomassKg = _ from ht2]
    refine List.sum_nonneg ?_
    intro x hx
    obtain ⟨p, hpmem, rfl⟩ := List.mem_map.mp hx
    exact (hmem p hpmem).2.1
  · rw [show (yearRecOf jsFun inp g).survivingTrees = _ from ht3]
    refine List.sum_nonneg ?_
    intro x hx
    obtain ⟨p, hpmem, rfl⟩ := List.mem_map.mp hx
    exact (hmem p hpmem).2.2

theorem summary_entry_nonneg (jsFun : JsEvalOracle) (inp : CalcInput) :
    ∀ e ∈ (calculate jsFun inp).speciesSummary, 0 ≤ e.totalCredits := by
  intro e he
  rw [calculate_summary] at he
  obtain ⟨sp, _, rfl⟩ := List.mem_map.mp he
  refine List.sum_nonneg ?_
  intro x hx
  obtain ⟨dd, hdd, rfl⟩ := List.mem_map.mp hx
  rw [calculate_yearly] at hdd
  obtain ⟨g, _, rfl⟩ := List.mem_map.mp hdd
  cases hf : (yearRecOf jsFun inp g).perSpecies.find?
      (fun p => p.speciesId == sp.id) with
  | none => simp [hf]
  | some p =>
    have hpmem := List.mem_of_find?_eq_some hf
    have := (perSpecies_entry_nonneg jsFun inp g p hpmem).1
    simp [hf, this]

theorem getD_mem_or_default {α : Type} (l : List α) (i : ℕ) (d : α) :
    l.getD i d ∈ l ∨ l.getD i d = d := by
  by_cases h : i < l.length
  · left
    rw [List.getD_eq_getElem?_getD, List.getElem?_eq_getElem h]
    exact List.getElem_mem h
  · right
    rw [List.getD_eq_getElem?_getD, List.getElem?_eq_none (by omega)]
    rfl

/-- C10 (amended): every credits, biomass and surviving-trees output field —
per year, per species per year, per-species cumulative summary, and the
overall total — is non-negative for every input, because schedule areas,
densities, shares and the mortality fraction are clamped and the biomass
function never returns a negative value; the per-species reported diameter
`dbhCm` is the one numeric output field that can be negative. -/
theorem calculate_outputs_nonneg (jsFun : JsEvalOracle) (inp : CalcInput)
    (g i : ℕ) :
    0 ≤ ((calculate jsFun inp).yearlyBreakdown.getD g dfltYear).credits
    ∧ 0 ≤ ((calculate jsFun inp).yearlyBreakdown.getD g dfltYear).biomassKg
    ∧ 0 ≤ ((calculate jsFun inp).yearlyBreakdown.getD g
        dfltYear).survivingTrees
    ∧ 0 ≤ (((calculate jsFun inp).yearlyBreakdown.getD g
        dfltYear).perSpecies.getD i dfltAgg).credits
    ∧ 0 ≤ (((calculate jsFun inp).yearlyBreakdown.getD g
        dfltYear).perSpecies.getD i dfltAgg).biomassKg
    ∧ 0 ≤ (((calculate jsFun inp).yearlyBreakdown.getD g
        dfltYear).perSpecies.getD i dfltAgg).survivingTrees
    ∧ 0 ≤ ((calculate jsFun inp).speciesSummary.getD i
        dfltSummary).totalCredits
    ∧ 0 ≤ (calculate jsFun inp).totalCredits := by
  have hYear : ∀ yr : YearRecord,
      (yr ∈ (calculate jsFun inp).yearlyBreakdown ∨ yr = dfltYear) →
      0 ≤ yr.credits ∧ 0 ≤ yr.biomassKg ∧ 0 ≤ yr.survivingTrees
      ∧ ∀ p ∈ yr.perSpecies,
          0 ≤ p.credits ∧ 0 ≤ p.biomassKg ∧ 0 ≤ p.survivingTrees := by
    intro yr hyr
    rcases hyr with hmem | rfl
    · rw [calculate_yearly] at hmem
      obtain ⟨g', _, rfl⟩ := List.mem_map.mp hmem
      exact ⟨(yearRecOf_totals_nonneg jsFun inp g').1,
        (yearRecOf_totals_nonneg jsFun inp g').2.1,
        (yearRecOf_totals_nonneg jsFun inp g').2.2,
        perSpecies_entry_nonneg jsFun inp g'⟩
    · refine ⟨le_refl 0, le_refl 0, le_refl 0, ?_⟩
      intro p hp
      cases hp
  obtain ⟨hyc, hyb, hyt, hentry⟩ := hYear _
    (getD_mem_or_default (calculate jsFun inp).yearlyBreakdown g dfltYear)
  refine ⟨hyc, hyb, hyt, ?_, ?_, ?_, ?_, ?_⟩
  · rcases getD_mem_or_default ((calculate jsFun inp).yearlyBreakdown.getD g
        dfltYear).perSpecies i dfltAgg with hmem | heq
    · exact (hentry _ hmem).1
    · rw [heq]; exact le_refl 0
  · rcases getD_mem_or_default ((calculate jsFun inp).yearlyBreakdown.getD g
        dfltYear).perSpecies i dfltAgg with hmem | heq
    · exact (hentry _ hmem).2.1
    · rw [heq]; exact le_refl 0
  · rcases getD_mem_or_default ((calculate jsFun inp).yearlyBreakdown.getD g
        dfltYear).perSpecies i dfltAgg with hmem | heq
    · exact (hentry _ hmem).2.2
    · rw [heq]; exact le_refl 0
  · rcases getD_mem_or_default (calculate jsFun inp).speciesSummary i
        dfltSummary with hmem | heq
    · exact summary_entry_nonneg jsFun inp _ hmem
    · rw [heq]; exact le_refl 0
  · rw [calculate_total]
    refine List.sum_nonneg ?_
    intro x hx
    obtain ⟨dd, hdd, rfl⟩ := List.mem_map.mp hx
    exact (hYear dd (Or.inl hdd)).1

/-- Concrete species row with a negative parsed initial diameter. -/
noncomputable def rowD : SpeciesRowP :=
  { rowA with initialDbhCm := some (-5) }

/-- Concrete one-year input without year-zero forcing whose species has a
negative initial diameter. -/
noncomputable def inpC : CalcInput :=
  { inpA with
    creditingEndYear := 2025
    forceYearZeroZero := false
    rows := [rowD] }

/-- C10 counterexample: the reported per-species diameter is a numeric
output field of the calculation, and at a concrete input with parsed initial
diameter −5 (no year-zero forcing) it is negative. -/
theorem output_dbh_negative :
    ((((calculate oracle0 inpC).yearlyBreakdown.getD 0
        dfltYear).perSpecies.getD 0 dfltAgg).dbhCm) < 0 := by
  have hi0 : 0 < (setupOf oracle0 inpC).length := by decide
  have hlen : ((inpC.creditingEndYear - inpC.plantingYear + 1).toNat) = 1 := by
    decide
  have h1 : (calculate oracle0 inpC).yearlyBreakdown.getD 0 dfltYear
      = yearRecOf oracle0 inpC 0 := by
    rw [calculate_yearly, hlen]
    rfl
  have h2 := yearRecOf_entry oracle0 inpC 0 0 hi0
  rw [h1, h2]
  have hbs : buildSchedule inpC
      = [(inpC.plantingYear, max 0 inpC.projectAreaHa)] := by
    unfold buildSchedule
    rw [if_neg (by decide)]
  rw [hbs, List.foldl_cons, List.foldl_nil]
  have hcond : ¬ ((0 : ℕ) : ℤ)
      < (inpC.plantingYear, max 0 inpC.projectAreaHa).1 - inpC.plantingYear := by
    decide
  rw [aggStep, if_neg hcond]
  have hperc : ¬ ((setupOf oracle0 inpC).get ⟨0, hi0⟩).percent ≤ 0 := by
    refine not_le.mpr ?_
    show 0 < (speciesSetupRow oracle0 inpC.defaultGrowthRate rowD).percent
    show (0 : ℝ) < max 0 (min 100 rowD.percent)
    have hr : rowD.percent = 100 := rfl
    rw [hr]
    norm_num
  rw [stepAgg, if_neg hperc]
  have hage : cohortAgeOf inpC.plantingYear 0
      (inpC.plantingYear, max 0 inpC.projectAreaHa).1 = 0 := by
    decide
  show (contrib (mortalityFraction inpC) inpC.forceYearZeroZero
    (cohortAgeOf inpC.plantingYear 0
      (inpC.plantingYear, max 0 inpC.projectAreaHa).1)
    (max 0 inpC.projectAreaHa)
    ((setupOf oracle0 inpC).get ⟨0, hi0⟩)).dbhCm < 0
  rw [hage]
  have hforce : inpC.forceYearZeroZero = false := rfl
  have hd0 : ((setupOf oracle0 inpC).get ⟨0, hi0⟩).initialDbhCm
      = (-5 : ℝ) := rfl
  have hgr : ((setupOf oracle0 inpC).get ⟨0, hi0⟩).growthRateCmYr
      = inpC.defaultGrowthRate := rfl
  have hdflt : inpC.defaultGrowthRate = (0.2 : ℝ) := rfl
  simp only [contrib, hforce, Bool.false_eq_true, false_and, if_false,
    hd0, hgr, hdflt]
  norm_num

end Carbon
